import Mathlib

/-!
Shallow embedding of the semantic-validation pipeline of the compliance
service (src/src/common/services/shacl.service.ts together with the
registry collaborator src/src/common/services/registry.service.ts).

External collaborators (jsonld canonization, the rdf N3 parser, the SHACL
engine, the HTTP registry client) are modelled as oracle fields of an
`Env` record; the module-level mutable `cache` is threaded explicitly as a
value of type `Schema_caching`; registry shape fetches are recorded in an
explicit log so that fetch-count properties can be stated.  Fallible
TypeScript code (async functions that may reject / throw) is modelled with
`Except Err`.
-/

deriving instance DecidableEq for Except

namespace GaiaX

/-! ### String helpers mirroring the JavaScript string operations used by the source -/

/-- `needle.isPrefixOf haystack` on plain character lists. -/
def isPrefixChars : List Char → List Char → Bool
  | [], _ => true
  | _ :: _, [] => false
  | a :: as, b :: bs => a == b && isPrefixChars as bs

/-- Substring occurrence on character lists (occurrence at any position). -/
def containsSeq (needle : List Char) : List Char → Bool
  | [] => isPrefixChars needle []
  | c :: cs => isPrefixChars needle (c :: cs) || containsSeq needle cs

/-- JS `haystack.indexOf(needle) > -1` for a non-empty needle. -/
def jsIncludes (s needle : String) : Bool :=
  containsSeq needle.data s.data

/-- Splitting a character list at every occurrence of a separator character,
keeping empty pieces, exactly like JS `String.prototype.split` with a
one-character separator. -/
def splitChar (sep : Char) : List Char → List Char → List (List Char)
  | [], acc => [acc.reverse]
  | c :: cs, acc =>
    if c == sep then acc.reverse :: splitChar sep cs []
    else splitChar sep cs (c :: acc)

/-- JS `s.split(sep)` for a one-character separator. -/
def jsSplit (s : String) (sep : Char) : List String :=
  (splitChar sep s.data []).map String.mk

/-- JS `s.replace` of the global regex `/<*>*/g` by the empty string: with
the global flag this deletes every angle-bracket character wherever it
occurs. -/
def stripAngles (s : String) : String :=
  String.mk (s.data.filter fun c => !(c == '<' || c == '>'))

/-- JS truthiness of `m || d` for an optional string: `undefined`, `null` and
the empty string all fall back to the default. -/
def jsOr (m : Option String) (d : String) : String :=
  match m with
  | none => d
  | some s => if s = "" then d else s

/-- JS template interpolation of a possibly-undefined value. -/
def jsShow (m : Option String) : String :=
  match m with
  | none => "undefined"
  | some s => s

/-! ### Data model (src/src/common/dto and the rdf / rdf-validate-shacl values) -/

/-- An in-memory RDF dataset (`DatasetExt`).  Its internal statements play no
role in the claims, so it is an abstract handle. -/
structure Dataset where
  id : Nat
deriving DecidableEq, Repr

/-- A JSON-LD-shaped input document: either an abstract structured object or a
raw string payload handed to the canonizer (the shape loader passes the raw
registry response string to `loadFromJSONLDWithQuads`). -/
inductive Doc where
  | obj (id : Nat)
  | str (s : String)
deriving DecidableEq, Repr

/-- Thrown / rejected errors.  `conflict` is a `ConflictException` built from a
string message, `wrapped` is `ConflictException(error)` re-raising a caught
error, `typeError` is a JavaScript `TypeError`, and `infra` stands for errors
raised by external libraries (axios, the parser, jsonld). -/
inductive Err where
  | conflict (msg : String)
  | wrapped (e : Err)
  | typeError (msg : String)
  | infra (msg : String)
deriving DecidableEq, Repr

/-- `e.message` as read by the catch block of `verifyShape`.  For
`ConflictException(error)` Nest exposes the wrapped error message. -/
def Err.message : Err → String
  | .conflict m => m
  | .wrapped e => e.message
  | .typeError m => m
  | .infra m => m

/-- `ValidationResult` of src/src/common/dto. -/
structure ValidationResult where
  conforms : Bool
  results : List String
deriving DecidableEq, Repr

/-- A nested detail entry of a SHACL validation result. -/
structure ViolationDetail where
  path : String
  message : Option String
deriving DecidableEq, Repr

/-- One violation of the report produced by the SHACL engine.  `focusNode` is
`result?.focusNode?.value` (possibly absent), `message` is absent when the
violation carries no message (JS-falsy). -/
structure ViolationResult where
  focusNode : Option String
  path : String
  message : Option String
  detail : List ViolationDetail
deriving DecidableEq, Repr

/-- The report returned by `SHACLValidator.validate`. -/
structure ValidationReport where
  conforms : Bool
  results : List ViolationResult
deriving DecidableEq, Repr

/-- `Schema_caching`: the module-level cache object, a map from type name to
an entry that may or may not yet hold a `shape`.  Modelled as an association
list; an absent key models `cache[type] === undefined`, a `none` value models
an entry object without a `shape` field. -/
abbrev Schema_caching := List (String × Option Dataset)

/-- `const cache: Schema_caching = { trustframework: {} }` -/
def initialCache : Schema_caching := [("trustframework", none)]

/-- JS property read `cache[t]`: `none` when the key is absent. -/
def cacheLookup (c : Schema_caching) (t : String) : Option (Option Dataset) :=
  match c.find? (fun p => p.1 == t) with
  | some p => some p.2
  | none => none

/-- `isCached`: `cache[type] && cache[type].shape`. -/
def isCached (c : Schema_caching) (t : String) : Bool :=
  match cacheLookup c t with
  | some (some _) => true
  | _ => false

/-- `cache[type].shape = schema` on an entry that exists. -/
def cacheSet (c : Schema_caching) (t : String) (d : Dataset) : Schema_caching :=
  c.map (fun p => if p.1 == t then (p.1, some d) else p)

/-! ### External collaborators -/

/-- The environment of external collaborators of one process run.

* `registryUrl` — the configured `REGISTRY_URL` (used by the registry client
  to build request URLs and by the loader for diagnostics only);
* `canonize` — `jsonld.canonize(doc, format n-quads)`;
* `implementedShapes` — the outcome of
  `registryService.getImplementedTrustFrameworkShapes()`;
* `registryShape` — `registryService.getShape(type)` returning the raw
  payload;
* `isJsonString` — whether `JSON.parse` succeeds on a payload;
* `parseNQuads` — the N3 parser run on canonical quad text
  (`rdf.dataset().import(parser.import(stream))`);
* `parseTurtle` — the same parser run on a turtle payload;
* `runValidator` — `new SHACLValidator(shapes).validate(data)`. -/
structure Env where
  registryUrl : String
  canonize : Doc → Except Err String
  implementedShapes : Except Err (List String)
  registryShape : String → Except Err String
  isJsonString : String → Bool
  parseNQuads : String → Except Err Dataset
  parseTurtle : String → Except Err Dataset
  runValidator : Dataset → Dataset → Except Err ValidationReport

/-! ### shacl.service.ts -/

/-- The default text used when a violation or detail carries no message. -/
def defaultConformMsg : String := "does not conform with the given shape"

/-- The message string built for one violation by `validate` (lines 28–36):
`ERROR: <focusNode.value> <path>: <message or default>`, and when the
violation has details, `; DETAILS:` followed by ` <path>: <message or
default>;` accumulated over the details in report order. -/
def formatViolation (r : ViolationResult) : String :=
  let base := "ERROR: " ++ jsShow r.focusNode ++ " " ++ r.path ++ ": " ++ jsOr r.message defaultConformMsg
  if r.detail.length > 0 then
    r.detail.foldl
      (fun acc d => acc ++ " " ++ d.path ++ ": " ++ jsOr d.message defaultConformMsg ++ ";")
      (base ++ "; DETAILS:")
  else base

/-- `validate(shapes, data)`: run the SHACL engine and flatten the report. -/
def validate (env : Env) (shapes data : Dataset) : Except Err ValidationResult :=
  match env.runValidator shapes data with
  | .error e => .error e
  | .ok report => .ok { conforms := report.conforms, results := report.results.map formatViolation }

/-- `loadFromTurtle(raw)`.  The try/catch in the source only guards the
synchronous parser construction; the returned promise is not awaited inside
the try, so a parse rejection propagates unchanged. -/
def loadFromTurtle (env : Env) (raw : String) : Except Err Dataset :=
  env.parseTurtle raw

/-- `loadFromJSONLDWithQuads(data)`: canonize, reject when the canonical quad
string is empty (`!quads || quads.length === 0`), otherwise parse. -/
def loadFromJSONLDWithQuads (env : Env) (data : Doc) : Except Err Dataset :=
  match env.canonize data with
  | .error e => .error e
  | .ok quads =>
    if quads = "" then .error (.conflict "Unable to canonize your VerifiablePresentation")
    else env.parseNQuads quads

/-- `loadShaclFromUrl(type)`: fetch the raw shape payload, sniff JSON, parse
through the matching path; any error of the chain is logged and re-thrown as
`ConflictException(error)`.  The second component is the fetch log: the
registry `getShape` endpoint is contacted on every call. -/
def loadShaclFromUrl (env : Env) (type : String) (log : List String) :
    Except Err Dataset × List String :=
  match env.registryShape type with
  | .error e => (.error (.wrapped e), log ++ [type])
  | .ok response =>
    match (if env.isJsonString response
           then loadFromJSONLDWithQuads env (Doc.str response)
           else loadFromTurtle env response) with
    | .ok d => (.ok d, log ++ [type])
    | .error e => (.error (.wrapped e), log ++ [type])

/-- `getShaclShape(shapeName)`: a direct delegation to `loadShaclFromUrl`;
it never consults the cache. -/
def getShaclShape (env : Env) (shapeName : String) (log : List String) :
    Except Err Dataset × List String :=
  loadShaclFromUrl env shapeName log

/-- The RDF type-assertion predicate IRI filtered for by `getVPTypes`. -/
def rdfTypeIRI : String := "http://www.w3.org/1999/02/22-rdf-syntax-ns#type"

/-- The proof-signature structural marker removed by `getVPTypes`. -/
def proofMarker : String := "<https://w3id.org/security#JsonWebSignature2020>"

/-- The VerifiablePresentation wrapper marker removed by `getVPTypes`. -/
def vpMarker : String := "<https://www.w3.org/2018/credentials#VerifiablePresentation>"

/-- The VerifiableCredential wrapper marker removed by `getVPTypes`. -/
def vcMarker : String := "<https://www.w3.org/2018/credentials#VerifiableCredential>"

/-- `getVPTypes(canonizedVP)` (lines 145–155): split into lines, keep lines
containing the rdf type IRI anywhere, drop lines containing any of the three
structural markers anywhere, take the third space-separated token of each
remaining line and delete its angle brackets.  On canonical n-quads input
every surviving line has at least three tokens; the source would throw on a
line with fewer (indexing `[2]` yields `undefined`), here the token defaults
to the empty string. -/
def getVPTypes (canonizedVP : String) : List String :=
  (((((jsSplit canonizedVP '\n').filter
        (fun quad => jsIncludes quad rdfTypeIRI)).filter
        (fun typeQuad => !jsIncludes typeQuad proofMarker)).filter
        (fun typeQuad => !jsIncludes typeQuad vpMarker)).filter
        (fun typeQuad => !jsIncludes typeQuad vcMarker)).map
    (fun typeQuad => stripAngles ((jsSplit typeQuad ' ').getD 2 ""))

/-- The hard-coded trust-framework namespace of `shouldCredentialBeValidated`;
it does not depend on the configured `REGISTRY_URL`. -/
def tfNamespace : String :=
  "https://registry.lab.gaia-x.eu/development/api/trusted-shape-registry/v1/shapes/jsonld/trustframework#"

/-- The pure body of `shouldCredentialBeValidated` given the registry reply
(lines 131–142): prefix every implemented short name with the namespace,
extract the credential types, and require a non-empty list whose membership
flags reduce under AND to true.  The `[]` arm of the match models the case
the JS `&&` short-circuit makes unreachable (JS `reduce` on an empty array
would throw); its value is irrelevant because the length guard is false
there. -/
def shouldCredentialBeValidatedCore (validTypes0 : List String) (quads : String) : Bool :=
  let validTypes := validTypes0.map (fun validType => tfNamespace ++ validType)
  let credentialTypes := getVPTypes quads
  decide (credentialTypes.length > 0) &&
    (match credentialTypes.map (fun type => validTypes.contains type) with
     | [] => false
     | b :: bs => bs.foldl (fun previousValue currentValue => previousValue && currentValue) b)

/-- `shouldCredentialBeValidated(quads)`: ask the registry for the implemented
shapes (an error there propagates — the call happens outside the try of
`verifyShape`), then decide membership. -/
def shouldCredentialBeValidatedE (env : Env) (quads : String) : Except Err Bool :=
  match env.implementedShapes with
  | .error e => .error e
  | .ok validTypes => .ok (shouldCredentialBeValidatedCore validTypes quads)

/-- The try block of `verifyShape` (lines 91–99): re-parse the document, then
either validate against the cached shape (`isCached` expands to the first
match arm) or load the shape, store it with `cache[type].shape = schema`
(a `TypeError` when `cache[type]` is `undefined`) and validate. -/
def verifyShapeTry (env : Env) (verifiablePresentation : Doc) (type : String)
    (c : Schema_caching) (log : List String) :
    Except Err ValidationResult × Schema_caching × List String :=
  match loadFromJSONLDWithQuads env verifiablePresentation with
  | .error e => (.error e, c, log)
  | .ok selfDescriptionDataset =>
    match cacheLookup c type with
    | some (some shape) =>
      (validate env shape selfDescriptionDataset, c, log)
    | some none =>
      match loadShaclFromUrl env type log with
      | (.error e, log') => (.error e, c, log')
      | (.ok schema, log') =>
        (validate env schema selfDescriptionDataset, cacheSet c type schema, log')
    | none =>
      match loadShaclFromUrl env type log with
      | (.error e, log') => (.error e, c, log')
      | (.ok _, log') =>
        (.error (.typeError "Cannot set properties of undefined (setting shape)"), c, log')

/-- `verifyShape(verifiablePresentation, type)` (lines 86–107): canonize (an
error propagates — outside the try), gate on trust-framework membership
(raising `ConflictException` on failure, a registry error propagating), then
run the try block; any error of the try block is caught and converted into
`{ conforms: false, results: [e.message] }`. -/
def verifyShape (env : Env) (verifiablePresentation : Doc) (type : String)
    (c : Schema_caching) (log : List String) :
    Except Err ValidationResult × Schema_caching × List String :=
  match env.canonize verifiablePresentation with
  | .error e => (.error e, c, log)
  | .ok quads =>
    match shouldCredentialBeValidatedE env quads with
    | .error e => (.error e, c, log)
    | .ok b =>
      if b then
        match verifyShapeTry env verifiablePresentation type c log with
        | (.ok r, c', log') => (.ok r, c', log')
        | (.error e, c', log') =>
          (.ok { conforms := false, results := [e.message] }, c', log')
      else
        (.error (.conflict "VerifiableCrdential contains a shape that is not defined in registry shapes"), c, log)

/-! ### Spec-side definitions (formalising the words of the specification) -/

/-- The text built for the nested details of one violation, following the
spec: for each detail, ` <path>: <message or default-text>;`, concatenated in
report order. -/
def specDetailsText : List ViolationDetail → String
  | [] => ""
  | d :: ds => " " ++ d.path ++ ": " ++ jsOr d.message defaultConformMsg ++ ";" ++ specDetailsText ds

/-- The violation message exactly as the spec describes it: `ERROR:
<focusNodeValue> <path>: <message or default-text>`, and when the violation
carries nested details, `; DETAILS:` followed by the detail texts. -/
def specViolationMessage (r : ViolationResult) : String :=
  "ERROR: " ++ jsShow r.focusNode ++ " " ++ r.path ++ ": " ++ jsOr r.message defaultConformMsg ++
    (if r.detail.isEmpty then "" else "; DETAILS:" ++ specDetailsText r.detail)

/-- The spec example violation: focusNode `ex:1`, path `ex:name`, no message,
one detail `ex:age` / `must be integer`. -/
def exampleViolation : ViolationResult :=
  { focusNode := some "ex:1", path := "ex:name", message := none,
    detail := [{ path := "ex:age", message := some "must be integer" }] }

/-- The i-th space-separated token of an n-quads line (empty when absent). -/
def nqToken (line : String) (i : Nat) : String :=
  (jsSplit line ' ').getD i ""

/-- The type extractor as the claim words it: keep exactly the lines whose
PREDICATE position is the rdf type-assertion predicate and whose OBJECT
position is none of the three structural markers, and return the object
terms with the angle brackets stripped. -/
def specExtractTypes (canonizedVP : String) : List String :=
  ((jsSplit canonizedVP '\n').filter
      (fun line =>
        nqToken line 1 == "<" ++ rdfTypeIRI ++ ">" &&
        !(nqToken line 2 == proofMarker || nqToken line 2 == vpMarker ||
          nqToken line 2 == vcMarker))).map
    (fun line => stripAngles (nqToken line 2))

/-- The type extractor as the source actually behaves: substring containment
of the rdf type IRI anywhere in the line, substring absence of the three
markers anywhere in the line, then the third token with every angle bracket
removed. -/
def specExtractTypesAmended (canonizedVP : String) : List String :=
  ((jsSplit canonizedVP '\n').filter
      (fun line =>
        jsIncludes line rdfTypeIRI && !jsIncludes line proofMarker &&
        !jsIncludes line vpMarker && !jsIncludes line vcMarker)).map
    (fun line => stripAngles ((jsSplit line ' ').getD 2 ""))

/-- A string consisting only of whitespace characters. -/
def isWhitespaceOnly (s : String) : Bool :=
  s.data.all (fun c => c == ' ' || c == '\t' || c == '\n' || c == '\r')

/-! ### Concrete inputs and environments used by witnesses and counterexamples -/

/-- A canonical quad line asserting a registered trust-framework type. -/
def goodQuadLine : String :=
  "<urn:s> <http://www.w3.org/1999/02/22-rdf-syntax-ns#type> <" ++ tfNamespace ++ "Member> ."

/-- A canonical quad line asserting a type outside the trust framework. -/
def unregisteredQuads : String :=
  "<urn:s> <http://www.w3.org/1999/02/22-rdf-syntax-ns#type> <http://example.com/Unregistered> ."

/-- A canonical quad line whose OBJECT (not predicate) is the rdf type IRI:
its predicate is `<http://ex/p>`, yet the line contains the type IRI as a
substring. -/
def cexTypeLine : String :=
  "<http://ex/s> <http://ex/p> <http://www.w3.org/1999/02/22-rdf-syntax-ns#type> ."

/-- A fully healthy environment: canonization yields `goodQuadLine`, the
registry implements `Member`, shape fetches and parses succeed, the SHACL
engine reports conformance. -/
def envOk : Env :=
  { registryUrl := "https://registry.gaia-x.eu/development"
    canonize := fun _ => .ok goodQuadLine
    implementedShapes := .ok ["Member"]
    registryShape := fun _ => .ok "shape-payload"
    isJsonString := fun _ => true
    parseNQuads := fun _ => .ok ⟨1⟩
    parseTurtle := fun _ => .ok ⟨2⟩
    runValidator := fun _ _ => .ok { conforms := true, results := [] } }

/-- Like `envOk` but the document carries an unregistered type. -/
def envMismatch : Env :=
  { envOk with canonize := fun _ => .ok unregisteredQuads }

/-- Like `envOk` but the quad parser rejects. -/
def envParseFail : Env :=
  { envOk with parseNQuads := fun _ => .error (.infra "parse failed") }

/-- Like `envOk` but the registry shape endpoint is unreachable. -/
def envRegistryDown : Env :=
  { envOk with registryShape := fun _ => .error (.infra "registry down") }

/-- Like `envOk` but canonization yields a whitespace-only quad string, which
the N3 parser accepts as an empty graph. -/
def envWhitespace : Env :=
  { envOk with canonize := fun _ => .ok " ", parseNQuads := fun _ => .ok ⟨7⟩ }

/-- Like `envOk` but canonization yields the empty string. -/
def envEmptyCanon : Env :=
  { envOk with canonize := fun _ => .ok "" }

/-! ### Helper lemmas -/

/-- Folding boolean AND over a list equals the conjunction of the seed with
the conjunction of all elements. -/
theorem foldl_and_eq (bs : List Bool) : ∀ b : Bool,
    bs.foldl (fun p c => p && c) b = (b && bs.all id) := by
  induction bs with
  | nil => intro b; simp
  | cons x xs ih =>
    intro b
    simp only [List.foldl_cons, ih, List.all_cons, id]
    rw [Bool.and_assoc]

/-- The detail fold of `formatViolation` prepends its seed to the
concatenated detail texts. -/
theorem detailsFold (l : List ViolationDetail) : ∀ init : String,
    l.foldl (fun acc d => acc ++ " " ++ d.path ++ ": " ++ jsOr d.message defaultConformMsg ++ ";") init
      = init ++ specDetailsText l := by
  induction l with
  | nil => intro init; simp [specDetailsText]
  | cons d ds ih =>
    intro init
    simp only [List.foldl_cons, ih, specDetailsText]
    simp [String.append_assoc]

/-- The source violation formatter agrees with the message format described
by the spec. -/
theorem formatViolation_eq_spec (r : ViolationResult) :
    formatViolation r = specViolationMessage r := by
  unfold formatViolation specViolationMessage
  cases hd : r.detail with
  | nil => simp [hd]
  | cons d ds =>
    simp only [hd, List.length_cons, List.isEmpty_cons]
    rw [if_pos (by omega), detailsFold]
    simp [String.append_assoc]

/-- The catch block of `verifyShape`: once the membership gate has passed,
an error of the try block is converted into
`{ conforms: false, results: [e.message] }`. -/
theorem verifyShape_catch_converts (env : Env) (vp : Doc) (type : String)
    (c : Schema_caching) (log : List String) (quads : String) (e : Err)
    (c' : Schema_caching) (log' : List String)
    (hq : env.canonize vp = .ok quads)
    (hm : shouldCredentialBeValidatedE env quads = .ok true)
    (ht : verifyShapeTry env vp type c log = (.error e, c', log')) :
    verifyShape env vp type c log =
      (.ok { conforms := false, results := [e.message] }, c', log') := by
  simp [verifyShape, hq, hm, ht]

/-! ### Claim theorems -/

/-- C1: whenever the trust-framework membership check over the extracted
types of the canonized document fails, `verifyShape` raises the
`ConflictException` for the trust-framework mismatch and does not return a
`ValidationResult` (in particular it does not return `conforms: false`). -/
theorem verifyShape_mismatch_raises (env : Env) (vp : Doc) (type : String)
    (c : Schema_caching) (log : List String) (quads : String)
    (hq : env.canonize vp = .ok quads)
    (hm : shouldCredentialBeValidatedE env quads = .ok false) :
    verifyShape env vp type c log =
      (.error (.conflict "VerifiableCrdential contains a shape that is not defined in registry shapes"), c, log) := by
  simp [verifyShape, hq, hm]

/-- Witness for C1: a document whose only extracted type is unregistered,
against implemented list `[Member]`. -/
theorem verifyShape_mismatch_raises_witness :
    shouldCredentialBeValidatedE envMismatch unregisteredQuads = .ok false ∧
    verifyShape envMismatch (Doc.obj 0) "Member" initialCache [] =
      (.error (.conflict "VerifiableCrdential contains a shape that is not defined in registry shapes"), initialCache, []) :=
  ⟨by decide,
   verifyShape_mismatch_raises envMismatch (Doc.obj 0) "Member" initialCache [] unregisteredQuads rfl (by decide)⟩

/-- C2: the membership check returns true exactly when the extracted type
list is non-empty and every extracted type occurs among the implemented
short names prefixed with the trust-framework namespace; an empty extracted
list therefore yields false whatever the implemented set, and a single
unrecognised type fails the whole list. -/
theorem membership_iff (implemented : List String) (quads : String) :
    shouldCredentialBeValidatedCore implemented quads = true ↔
      (getVPTypes quads ≠ [] ∧
        ∀ t ∈ getVPTypes quads, t ∈ implemented.map (fun v => tfNamespace ++ v)) := by
  unfold shouldCredentialBeValidatedCore
  cases hts : getVPTypes quads with
  | nil => simp [hts]
  | cons t ts =>
    simp only [hts, List.map_cons, List.length_cons]
    rw [foldl_and_eq]
    simp [List.all_eq_true, List.contains, List.elem_iff]

/-- C3 counterexample: with the registry shape endpoint failing, a
`verifyShape` call that passed the membership gate returns the value
`{ conforms: false, results: [message] }` instead of raising the shape-load
error, refuting the claim that such failures are reported as raised
errors. -/
theorem shape_load_failure_downgraded :
    envRegistryDown.registryShape "Member" = .error (.infra "registry down") ∧
    verifyShape envRegistryDown (Doc.obj 0) "Member" initialCache [] =
      (.ok { conforms := false, results := ["registry down"] }, initialCache, ["Member"]) := by
  constructor <;> decide

/-- C3 amended: an infrastructure shape-load failure occurring inside a
`verifyShape` call is caught at the `verifyShape` boundary and converted
into `{ conforms: false, results: [message] }`; it is not raised to the
caller. -/
theorem verifyShape_absorbs_shape_load_failures (env : Env) (vp : Doc) (type : String)
    (c : Schema_caching) (log : List String) (quads : String) (sdd : Dataset) (e : Err)
    (hq : env.canonize vp = .ok quads)
    (hm : shouldCredentialBeValidatedE env quads = .ok true)
    (hld : loadFromJSONLDWithQuads env vp = .ok sdd)
    (hc : cacheLookup c type = none)
    (hr : env.registryShape type = .error e) :
    verifyShape env vp type c log =
      (.ok { conforms := false, results := [e.message] }, c, log ++ [type]) := by
  have ht : verifyShapeTry env vp type c log = (.error (.wrapped e), c, log ++ [type]) := by
    simp [verifyShapeTry, hld, hc, loadShaclFromUrl, hr]
  have h := verifyShape_catch_converts env vp type c log quads (.wrapped e) c (log ++ [type]) hq hm ht
  simpa [Err.message] using h

/-- Witness for the amended C3. -/
theorem verifyShape_absorbs_shape_load_failures_witness :
    cacheLookup initialCache "Member" = none ∧
    verifyShape envRegistryDown (Doc.obj 0) "Member" initialCache [] =
      (.ok { conforms := false, results := ["registry down"] }, initialCache, ["Member"]) :=
  ⟨by decide,
   verifyShape_absorbs_shape_load_failures envRegistryDown (Doc.obj 0) "Member" initialCache []
     goodQuadLine ⟨1⟩ (.infra "registry down") rfl (by decide) (by decide) (by decide) rfl⟩

/-- C4: once the membership gate has passed, any failure of the try block of
`verifyShape` (re-parse, shape-cache resolution, validation) is caught at
the `verifyShape` boundary and converted into
`{ conforms: false, results: [failureMessage] }` instead of propagating. -/
theorem verifyShape_absorbs_try_failures (env : Env) (vp : Doc) (type : String)
    (c : Schema_caching) (log : List String) (quads : String) (e : Err)
    (c' : Schema_caching) (log' : List String)
    (hq : env.canonize vp = .ok quads)
    (hm : shouldCredentialBeValidatedE env quads = .ok true)
    (ht : verifyShapeTry env vp type c log = (.error e, c', log')) :
    verifyShape env vp type c log =
      (.ok { conforms := false, results := [e.message] }, c', log') :=
  verifyShape_catch_converts env vp type c log quads e c' log' hq hm ht

/-- Witness for C4: a rejecting quad parser is absorbed into a
`conforms: false` result. -/
theorem verifyShape_absorbs_try_failures_witness :
    verifyShapeTry envParseFail (Doc.obj 0) "Member" initialCache [] =
      (.error (.infra "parse failed"), initialCache, []) ∧
    verifyShape envParseFail (Doc.obj 0) "Member" initialCache [] =
      (.ok { conforms := false, results := ["parse failed"] }, initialCache, []) :=
  ⟨by decide,
   verifyShape_absorbs_try_failures envParseFail (Doc.obj 0) "Member" initialCache []
     goodQuadLine (.infra "parse failed") initialCache [] rfl (by decide) (by decide)⟩

/-- C5 counterexample: a whitespace-only (non-empty) canonical quad string is
not rejected by `loadFromJSONLDWithQuads`; it is handed to the parser, which
accepts it as an empty graph, so no EmptyGraphError is raised. -/
theorem loadFromJSONLDWithQuads_whitespace_not_rejected :
    isWhitespaceOnly " " = true ∧ (" " = "" → False) ∧
    envWhitespace.canonize (Doc.obj 0) = .ok " " ∧
    loadFromJSONLDWithQuads envWhitespace (Doc.obj 0) = .ok ⟨7⟩ := by
  refine ⟨by decide, by decide, rfl, by decide⟩

/-- C5 amended: `loadFromJSONLDWithQuads` raises the EmptyGraphError
(`ConflictException` with message `Unable to canonize your
VerifiablePresentation`) exactly when the canonical quad string is the empty
string; any non-empty string, whitespace-only included, is handed to the
quad parser. -/
theorem loadFromJSONLDWithQuads_empty_guard (env : Env) (data : Doc) (quads : String)
    (hq : env.canonize data = .ok quads) :
    loadFromJSONLDWithQuads env data =
      (if quads = "" then .error (.conflict "Unable to canonize your VerifiablePresentation")
       else env.parseNQuads quads) := by
  simp [loadFromJSONLDWithQuads, hq]

/-- Witness for the amended C5: an empty canonical quad string raises the
error. -/
theorem loadFromJSONLDWithQuads_empty_guard_witness :
    envEmptyCanon.canonize (Doc.obj 0) = .ok "" ∧
    loadFromJSONLDWithQuads envEmptyCanon (Doc.obj 0) =
      .error (.conflict "Unable to canonize your VerifiablePresentation") :=
  ⟨rfl, by
    have h := loadFromJSONLDWithQuads_empty_guard envEmptyCanon (Doc.obj 0) "" rfl
    simpa using h⟩

/-- C6: with every collaborator healthy, two sequential `verifyShape` calls
for the type `Member` both contact the registry (the fetch log grows to two
entries) because the cache write throws on the undefined cache entry and the
shape is never stored; moreover a repeated direct `getShaclShape` call
fetches again even for `trustframework`.  This exhibits the code bug behind
the claimed at-most-one-fetch guarantee. -/
theorem cache_never_populated_for_other_types :
    verifyShape envOk (Doc.obj 0) "Member" initialCache [] =
      (.ok { conforms := false, results := ["Cannot set properties of undefined (setting shape)"] },
       initialCache, ["Member"]) ∧
    verifyShape envOk (Doc.obj 0) "Member" initialCache ["Member"] =
      (.ok { conforms := false, results := ["Cannot set properties of undefined (setting shape)"] },
       initialCache, ["Member", "Member"]) ∧
    getShaclShape envOk "trustframework" ["trustframework"] =
      (.ok ⟨1⟩, ["trustframework", "trustframework"]) := by
  refine ⟨by decide, by decide, by decide⟩

/-- C7: `validate` produces exactly one result string per violation of the
report, each formatted as the spec describes, and the spec example violation
formats to the expected string. -/
theorem validate_formats_violations :
    (∀ (env : Env) (shapes data : Dataset),
      validate env shapes data =
        (env.runValidator shapes data).map
          (fun rep => { conforms := rep.conforms, results := rep.results.map specViolationMessage })) ∧
    specViolationMessage exampleViolation =
      "ERROR: ex:1 ex:name: does not conform with the given shape; DETAILS: ex:age: must be integer;" := by
  constructor
  · intro env shapes data
    unfold validate
    cases h : env.runValidator shapes data with
    | error e => simp [Except.map]
    | ok rep => simp [Except.map, formatViolation_eq_spec]
  · decide

/-- C8 counterexample: a canonical quad line whose object — not predicate —
is the rdf type IRI is kept by `getVPTypes` (substring filtering), while the
predicate-positional extractor of the claim keeps nothing. -/
theorem getVPTypes_not_predicate_positional :
    getVPTypes cexTypeLine = ["http://www.w3.org/1999/02/22-rdf-syntax-ns#type"] ∧
    specExtractTypes cexTypeLine = [] := by
  constructor <;> decide

/-- C8 amended: `getVPTypes` returns the third space-separated token, with
every angle bracket removed, of exactly those lines that contain the rdf
type IRI as a substring anywhere and contain none of the three structural
marker substrings anywhere, in input order. -/
theorem getVPTypes_substring_characterisation (canonizedVP : String) :
    getVPTypes canonizedVP = specExtractTypesAmended canonizedVP := by
  unfold getVPTypes specExtractTypesAmended
  rw [List.filter_filter, List.filter_filter, List.filter_filter]
  congr 1
  apply List.filter_congr
  intro line _
  cases h1 : jsIncludes line rdfTypeIRI <;>
  cases h2 : jsIncludes line proofMarker <;>
  cases h3 : jsIncludes line vpMarker <;>
  cases h4 : jsIncludes line vcMarker <;>
  simp [h1, h2, h3, h4]

/-- C9: for a type with no existing cache entry (every type other than
`trustframework`), a `verifyShape` call that passes the membership gate
always returns a `conforms: false` result and leaves the cache unchanged:
the cache write on the undefined entry fails and the failure is absorbed by
the catch, whatever the document and shape contents. -/
theorem uncached_type_never_conforms (env : Env) (vp : Doc) (type : String)
    (c : Schema_caching) (log : List String) (quads : String)
    (hc : cacheLookup c type = none)
    (hq : env.canonize vp = .ok quads)
    (hm : shouldCredentialBeValidatedE env quads = .ok true) :
    ∃ r log', verifyShape env vp type c log = (.ok r, c, log') ∧ r.conforms = false := by
  cases hld : loadFromJSONLDWithQuads env vp with
  | error e =>
    refine ⟨{ conforms := false, results := [e.message] }, log, ?_, rfl⟩
    have ht : verifyShapeTry env vp type c log = (.error e, c, log) := by
      simp [verifyShapeTry, hld]
    exact verifyShape_catch_converts env vp type c log quads e c log hq hm ht
  | ok sdd =>
    cases hl : loadShaclFromUrl env type log with
    | mk res log' =>
      cases res with
      | error e =>
        refine ⟨{ conforms := false, results := [e.message] }, log', ?_, rfl⟩
        have ht : verifyShapeTry env vp type c log = (.error e, c, log') := by
          simp [verifyShapeTry, hld, hc, hl]
        exact verifyShape_catch_converts env vp type c log quads e c log' hq hm ht
      | ok schema =>
        refine ⟨{ conforms := false,
                  results := ["Cannot set properties of undefined (setting shape)"] }, log', ?_, rfl⟩
        have ht : verifyShapeTry env vp type c log =
            (.error (.typeError "Cannot set properties of undefined (setting shape)"), c, log') := by
          simp [verifyShapeTry, hld, hc, hl]
        exact verifyShape_catch_converts env vp type c log quads
          (.typeError "Cannot set properties of undefined (setting shape)") c log' hq hm ht

/-- Witness for C9: a fully healthy environment and the uncached type
`Member` still yield `conforms: false`. -/
theorem uncached_type_never_conforms_witness :
    cacheLookup initialCache "Member" = none ∧
    (∃ r log', verifyShape envOk (Doc.obj 0) "Member" initialCache [] =
      (.ok r, initialCache, log') ∧ r.conforms = false) :=
  ⟨by decide,
   uncached_type_never_conforms envOk (Doc.obj 0) "Member" initialCache []
     goodQuadLine (by decide) rfl (by decide)⟩

/-- C10: the namespace used to qualify the implemented short names is the
hard-coded trust-framework constant, and the membership decision of
`shouldCredentialBeValidated` depends only on the registry reply and the
quad input: two environments sharing the implemented-shapes reply — however
much their configured registry URL or any other collaborator differs —
produce the same decision. -/
theorem membership_ignores_registry_url :
    tfNamespace =
      "https://registry.lab.gaia-x.eu/development/api/trusted-shape-registry/v1/shapes/jsonld/trustframework#" ∧
    ∀ (u₁ u₂ : String) (cz₁ cz₂ : Doc → Except Err String)
      (shapes : Except Err (List String)) (rs₁ rs₂ : String → Except Err String)
      (ij₁ ij₂ : String → Bool) (pn₁ pn₂ pt₁ pt₂ : String → Except Err Dataset)
      (rv₁ rv₂ : Dataset → Dataset → Except Err ValidationReport) (quads : String),
      shouldCredentialBeValidatedE ⟨u₁, cz₁, shapes, rs₁, ij₁, pn₁, pt₁, rv₁⟩ quads =
      shouldCredentialBeValidatedE ⟨u₂, cz₂, shapes, rs₂, ij₂, pn₂, pt₂, rv₂⟩ quads := by
  refine ⟨rfl, ?_⟩
  intros
  rfl

end GaiaX
